import Mathlib

/-!
Verification development for the lnrs-db-app repository.

The repository is a Streamlit CRUD application over a DuckDB file.  The
definitions below are a shallow embedding of the parts of the code that the
verified properties talk about:

* the per-entity cascade-delete methods (`models/measure.py`,
  `models/priority.py`, `models/area.py`, `models/habitat.py`,
  `models/grant.py`, `models/species.py`), translated as deletion plans over
  an explicit database state;
* the relationship-link manager (`models/relationship.py`);
* `MeasureModel.update_with_relationships` (`models/measure.py`);
* the snapshot manager (`config/backup.py`), translated as a state machine
  over an abstract file-content type.

Machine integers do not overflow in any of the modelled code paths, so ids
and counters are plain `Nat`; duckdb's `grant_id` (a string in the schema)
is also modelled as `Nat`, which is harmless because the code only compares
grant ids for equality.
-/

namespace LNRS

/-- Names of the tables touched by the cascade-delete code paths, as they
appear in the SQL statements of `models/*.py`. -/
inductive TableName where
  | measure
  | measure_has_type
  | measure_has_stakeholder
  | measure_has_benefits
  | measure_has_species
  | measure_area_priority
  | measure_area_priority_grant
  | species
  | species_area_priority
  | habitat
  | habitat_creation_area
  | habitat_management_area
  | area
  | area_funding_schemes
  | priority
  | grant_table
deriving DecidableEq, Repr

/-- Database state: each table is the list of its rows, keeping only the id
columns that the modelled statements read or write.

Row shapes follow the schema used by the SQL in `models/*.py`:
`measure_has_*` rows are `(measure_id, other_id)`;
`measure_area_priority` rows are `(measure_id, area_id, priority_id)`;
`measure_area_priority_grant` rows are
`(measure_id, area_id, priority_id, grant_id)`;
`species_area_priority` rows are `(species_id, area_id, priority_id)`;
`habitat_creation_area` / `habitat_management_area` rows are
`(habitat_id, area_id)`; `area_funding_schemes` rows are `(id, area_id)`;
entity tables are lists of primary-key ids. -/
structure DB where
  measure : List Nat
  measure_has_type : List (Nat × Nat)
  measure_has_stakeholder : List (Nat × Nat)
  measure_has_benefits : List (Nat × Nat)
  measure_has_species : List (Nat × Nat)
  measure_area_priority : List (Nat × Nat × Nat)
  measure_area_priority_grant : List (Nat × Nat × Nat × Nat)
  species : List Nat
  species_area_priority : List (Nat × Nat × Nat)
  habitat : List Nat
  habitat_creation_area : List (Nat × Nat)
  habitat_management_area : List (Nat × Nat)
  area : List Nat
  area_funding_schemes : List (Nat × Nat)
  priority : List Nat
  grant_table : List Nat
deriving DecidableEq, Repr

/-- The empty database, used to build concrete witnesses. -/
def DB.empty : DB :=
  { measure := [], measure_has_type := [], measure_has_stakeholder := []
    measure_has_benefits := [], measure_has_species := []
    measure_area_priority := [], measure_area_priority_grant := []
    species := [], species_area_priority := []
    habitat := [], habitat_creation_area := [], habitat_management_area := []
    area := [], area_funding_schemes := []
    priority := [], grant_table := [] }

/-- Semantics of `DELETE FROM t WHERE key = ?`: keep the rows whose key
column differs from the bound id. -/
def delBy {α : Type} (key : α → Nat) (id : Nat) (l : List α) : List α :=
  l.filter (fun r => !(key r == id))

/-- Semantics of `SELECT COUNT(*) FROM t WHERE key = ?`. -/
def countBy {α : Type} (key : α → Nat) (id : Nat) (l : List α) : Nat :=
  (l.filter (fun r => key r == id)).length

/-- Key extractor: the `area_id` column of a `(measure_id, area_id,
priority_id)` row. -/
def mapArea (r : Nat × Nat × Nat) : Nat := r.2.1

/-- Key extractor: the `priority_id` column of a `(measure_id, area_id,
priority_id)` row (also used for `species_area_priority`). -/
def mapPriority (r : Nat × Nat × Nat) : Nat := r.2.2

/-- Key extractor: the `area_id` column of a
`(measure_id, area_id, priority_id, grant_id)` row. -/
def mapgArea (r : Nat × Nat × Nat × Nat) : Nat := r.2.1

/-- Key extractor: the `priority_id` column of a
`(measure_id, area_id, priority_id, grant_id)` row. -/
def mapgPriority (r : Nat × Nat × Nat × Nat) : Nat := r.2.2.1

/-- Key extractor: the `grant_id` column of a
`(measure_id, area_id, priority_id, grant_id)` row. -/
def mapgGrant (r : Nat × Nat × Nat × Nat) : Nat := r.2.2.2

/-- Execution strategy of a cascade-delete method: `atomic` when the Python
code routes all statements through `db.execute_transaction` (one
begin/commit with rollback on failure), `sequential` when it issues one
`conn.execute` per statement, each committed immediately. -/
inductive ExecMode where
  | atomic
  | sequential
deriving DecidableEq, Repr

/-- One cascade plan: the ordered delete statements (table touched plus the
state transformer of the statement) and the execution strategy, read off one
`delete_with_cascade` method. -/
structure CascadePlan where
  steps : List (TableName × (DB → DB))
  mode : ExecMode

/-- Tables of a plan's statements, in execution order. -/
def planTables (p : CascadePlan) : List TableName := p.steps.map Prod.fst

/-- State transformers of a plan's statements, in execution order. -/
def stepFuns (p : CascadePlan) : List (DB → DB) := p.steps.map Prod.snd

/-- Apply a list of statements left to right. -/
def applySteps : List (DB → DB) → DB → DB
  | [], db => db
  | f :: fs, db => applySteps fs (f db)

/-- Run a cascade plan with optional failure injection.  `failAt = some k`
(1-indexed) means the k-th statement raises `duckdb.Error` before mutating
anything.  In atomic mode the transaction rolls back, leaving the state
unchanged; in sequential mode the first `k - 1` statements stay committed.
Without an injected failure every statement runs and the method returns
`True`. -/
def runPlan (p : CascadePlan) (failAt : Option Nat) (db : DB) : DB × Bool :=
  match failAt with
  | none => (applySteps (stepFuns p) db, true)
  | some k =>
    if 1 ≤ k ∧ k ≤ (stepFuns p).length then
      match p.mode with
      | ExecMode.atomic => (db, false)
      | ExecMode.sequential => (applySteps ((stepFuns p).take (k - 1)) db, false)
    else
      (applySteps (stepFuns p) db, true)

/-- MeasureModel.delete_with_cascade (models/measure.py, lines 297-425):
seven sequential `conn.execute` delete statements, in the order
measure_has_type, measure_has_stakeholder, measure_area_priority_grant,
measure_area_priority, measure_has_benefits, measure_has_species, measure. -/
def measurePlan (id : Nat) : CascadePlan :=
  { steps :=
      [ (TableName.measure_has_type,
          fun db => { db with measure_has_type := delBy Prod.fst id db.measure_has_type })
      , (TableName.measure_has_stakeholder,
          fun db => { db with measure_has_stakeholder := delBy Prod.fst id db.measure_has_stakeholder })
      , (TableName.measure_area_priority_grant,
          fun db => { db with measure_area_priority_grant := delBy Prod.fst id db.measure_area_priority_grant })
      , (TableName.measure_area_priority,
          fun db => { db with measure_area_priority := delBy Prod.fst id db.measure_area_priority })
      , (TableName.measure_has_benefits,
          fun db => { db with measure_has_benefits := delBy Prod.fst id db.measure_has_benefits })
      , (TableName.measure_has_species,
          fun db => { db with measure_has_species := delBy Prod.fst id db.measure_has_species })
      , (TableName.measure,
          fun db => { db with measure := delBy (fun x => x) id db.measure }) ]
    mode := ExecMode.sequential }

/-- PriorityModel.delete_with_cascade (models/priority.py, lines 133-223):
four sequential `conn.execute` delete statements keyed on `priority_id`. -/
def priorityPlan (id : Nat) : CascadePlan :=
  { steps :=
      [ (TableName.measure_area_priority_grant,
          fun db => { db with measure_area_priority_grant := delBy mapgPriority id db.measure_area_priority_grant })
      , (TableName.measure_area_priority,
          fun db => { db with measure_area_priority := delBy mapPriority id db.measure_area_priority })
      , (TableName.species_area_priority,
          fun db => { db with species_area_priority := delBy mapPriority id db.species_area_priority })
      , (TableName.priority,
          fun db => { db with priority := delBy (fun x => x) id db.priority }) ]
    mode := ExecMode.sequential }

/-- AreaModel.delete_with_cascade (models/area.py, lines 226-266): seven
delete statements keyed on `area_id`, all passed to `db.execute_transaction`
— a single atomic transaction. -/
def areaPlan (id : Nat) : CascadePlan :=
  { steps :=
      [ (TableName.measure_area_priority_grant,
          fun db => { db with measure_area_priority_grant := delBy mapgArea id db.measure_area_priority_grant })
      , (TableName.measure_area_priority,
          fun db => { db with measure_area_priority := delBy mapArea id db.measure_area_priority })
      , (TableName.species_area_priority,
          fun db => { db with species_area_priority := delBy mapArea id db.species_area_priority })
      , (TableName.area_funding_schemes,
          fun db => { db with area_funding_schemes := delBy Prod.snd id db.area_funding_schemes })
      , (TableName.habitat_creation_area,
          fun db => { db with habitat_creation_area := delBy Prod.snd id db.habitat_creation_area })
      , (TableName.habitat_management_area,
          fun db => { db with habitat_management_area := delBy Prod.snd id db.habitat_management_area })
      , (TableName.area,
          fun db => { db with area := delBy (fun x => x) id db.area }) ]
    mode := ExecMode.atomic }

/-- HabitatModel.delete_with_cascade (models/habitat.py, lines 110-185):
three sequential `conn.execute` delete statements keyed on `habitat_id`. -/
def habitatPlan (id : Nat) : CascadePlan :=
  { steps :=
      [ (TableName.habitat_creation_area,
          fun db => { db with habitat_creation_area := delBy Prod.fst id db.habitat_creation_area })
      , (TableName.habitat_management_area,
          fun db => { db with habitat_management_area := delBy Prod.fst id db.habitat_management_area })
      , (TableName.habitat,
          fun db => { db with habitat := delBy (fun x => x) id db.habitat }) ]
    mode := ExecMode.sequential }

/-- GrantModel.delete_with_cascade (models/grant.py, lines 86-154): two
sequential `conn.execute` delete statements keyed on `grant_id` ("Execute
deletes in separate steps outside transaction"). -/
def grantPlan (id : Nat) : CascadePlan :=
  { steps :=
      [ (TableName.measure_area_priority_grant,
          fun db => { db with measure_area_priority_grant := delBy mapgGrant id db.measure_area_priority_grant })
      , (TableName.grant_table,
          fun db => { db with grant_table := delBy (fun x => x) id db.grant_table }) ]
    mode := ExecMode.sequential }

/-- SpeciesModel.delete_with_cascade (models/species.py, lines 115-147):
three delete statements keyed on `species_id`, all passed to
`db.execute_transaction` — a single atomic transaction. -/
def speciesPlan (id : Nat) : CascadePlan :=
  { steps :=
      [ (TableName.species_area_priority,
          fun db => { db with species_area_priority := delBy Prod.fst id db.species_area_priority })
      , (TableName.measure_has_species,
          fun db => { db with measure_has_species := delBy Prod.snd id db.measure_has_species })
      , (TableName.species,
          fun db => { db with species := delBy (fun x => x) id db.species }) ]
    mode := ExecMode.atomic }

/-- RelationshipModel.link_exists_measure_area_priority
(models/relationship.py, lines 58-79): `SELECT COUNT(*) ... WHERE measure_id
= ? AND area_id = ? AND priority_id = ?` compared with 0. -/
def linkExistsMAP (m a p : Nat) (db : DB) : Bool :=
  decide (0 < (db.measure_area_priority.filter
        (fun r => r.1 == m && r.2.1 == a && r.2.2 == p)).length)

/-- The `INSERT INTO measure_area_priority` statement of
`create_measure_area_priority_link`. -/
def insertMAP (m a p : Nat) (db : DB) : DB :=
  { db with measure_area_priority := db.measure_area_priority ++ [(m, a, p)] }

/-- Error kinds reported by the relationship-link manager: the
`ValueError("Link already exists: ...")` raised by
`create_measure_area_priority_link` is the duplicate-link error kind. -/
inductive LinkError where
  | duplicateLink
deriving DecidableEq, Repr

/-- RelationshipModel.create_measure_area_priority_link
(models/relationship.py, lines 81-119): check existence first, raise the
duplicate-link error if the tuple is present, otherwise insert the row. -/
def createMAPLink (m a p : Nat) (db : DB) : Except LinkError DB :=
  if linkExistsMAP m a p db then Except.error LinkError.duplicateLink
  else Except.ok (insertMAP m a p db)

/-- Rows of `measure_area_priority` equal to a given id tuple, as counted by
`link_exists_measure_area_priority`. -/
def countMAPTuple (m a p : Nat) (db : DB) : Nat :=
  (db.measure_area_priority.filter
    (fun r => r.1 == m && r.2.1 == a && r.2.2 == p)).length

/-- The `INSERT INTO measure_has_type` rows generated for a list of type
ids in `update_with_relationships`. -/
def insertMHT (id : Nat) (l : List Nat) (db : DB) : DB :=
  { db with measure_has_type := db.measure_has_type ++ l.map (fun t => (id, t)) }

/-- The `INSERT INTO measure_has_stakeholder` rows generated for a list of
stakeholder ids in `update_with_relationships`. -/
def insertMHS (id : Nat) (l : List Nat) (db : DB) : DB :=
  { db with measure_has_stakeholder := db.measure_has_stakeholder ++ l.map (fun s => (id, s)) }

/-- The `INSERT INTO measure_has_benefits` rows generated for a list of
benefit ids in `update_with_relationships`. -/
def insertMHB (id : Nat) (l : List Nat) (db : DB) : DB :=
  { db with measure_has_benefits := db.measure_has_benefits ++ l.map (fun b => (id, b)) }

/-- Python truthiness of a `list[int] | None` argument: `if measure_types:`
is `False` both for `None` and for the empty list. -/
def pyTruthy : Option (List Nat) → Bool
  | some (_ :: _) => true
  | _ => false

/-- MeasureModel.update_with_relationships (models/measure.py, lines
505-577), restricted to its effect on the three relation tables (the scalar
`UPDATE measure SET ...` statement touches no relation table and no id
column, so it is not represented).  The transaction always contains the
three `DELETE ... WHERE measure_id = ?` statements, then appends insert
statements only for arguments that are truthy (non-`None` and non-empty).
All statements commit together via `db.execute_transaction`; only the
success path is modelled. -/
def updateWithRelationships (id : Nat)
    (measureTypes stakeholders benefits : Option (List Nat)) (db : DB) : DB :=
  let db1 := { db with measure_has_type := delBy Prod.fst id db.measure_has_type }
  let db2 := { db1 with measure_has_stakeholder := delBy Prod.fst id db1.measure_has_stakeholder }
  let db3 := { db2 with measure_has_benefits := delBy Prod.fst id db2.measure_has_benefits }
  let db4 := if pyTruthy measureTypes then insertMHT id (measureTypes.getD []) db3 else db3
  let db5 := if pyTruthy stakeholders then insertMHS id (stakeholders.getD []) db4 else db4
  if pyTruthy benefits then insertMHB id (benefits.getD []) db5 else db5

/-- Operations observable in a UI delete action: a snapshot creation or a
delete statement against a table. -/
inductive UiOp where
  | snapshot
  | dbDelete (t : TableName)
deriving DecidableEq, Repr

/-- Modelled from the spec: the `with_snapshot` decorator.  `measure.py` and
`priority.py` import it from `config.database` and `grant.py` uses
`db.with_snapshot`, but no definition exists anywhere under the repository
sources; per the spec it wraps a destructive operation so that
`create_snapshot` runs first and the wrapped cascade runs after it
("every destructive cascade is meant to be preceded by a recoverable
snapshot"; "every destructive UI action that wraps its cascade call in a
`create_snapshot` first"). -/
def withSnapshotTrace (body : List UiOp) : List UiOp :=
  UiOp.snapshot :: body

/-- The delete statements of a plan as UI-observable operations. -/
def planDeletes (p : CascadePlan) : List UiOp :=
  (planTables p).map UiOp.dbDelete

/-- Operations performed by the measure delete confirmation action
(ui/pages/measures.py calls `MeasureModel.delete_with_cascade`, which is
decorated with `@with_snapshot("delete", "measure")`). -/
def measureDeleteAction : List UiOp := withSnapshotTrace (planDeletes (measurePlan 0))

/-- Operations performed by the priority delete confirmation action
(ui/pages/priorities.py calls `PriorityModel.delete_with_cascade`, decorated
with `@with_snapshot("delete", "priority")`). -/
def priorityDeleteAction : List UiOp := withSnapshotTrace (planDeletes (priorityPlan 0))

/-- Operations performed by the grant delete confirmation action
(ui/pages/grants.py calls `GrantModel.delete_with_cascade`, decorated with
`@db.with_snapshot("delete", "grant")`). -/
def grantDeleteAction : List UiOp := withSnapshotTrace (planDeletes (grantPlan 0))

/-- Operations performed by the area delete confirmation action
(ui/pages/areas.py, lines 216-223, calls `AreaModel.delete_with_cascade`
directly; neither the page nor the model creates a snapshot). -/
def areaDeleteAction : List UiOp := planDeletes (areaPlan 0)

/-- Operations performed by the habitat delete confirmation action
(ui/pages/habitats.py, lines 151-158, calls
`HabitatModel.delete_with_cascade` directly; no snapshot anywhere on the
path). -/
def habitatDeleteAction : List UiOp := planDeletes (habitatPlan 0)

/-- Operations performed by the species delete confirmation action
(ui/pages/species.py, lines 246-261, calls
`SpeciesModel.delete_with_cascade` directly; no snapshot anywhere on the
path). -/
def speciesDeleteAction : List UiOp := planDeletes (speciesPlan 0)

/-- Relation-to-relation dependency of the schema: the only relation whose
rows reference another relation's rows is `measure_area_priority_grant`,
which carries a composite foreign key onto `measure_area_priority`
(documented in models/measure.py and models/priority.py: "The composite FK
from measure_area_priority_grant to measure_area_priority"). -/
def dependsOn : TableName → Option TableName
  | TableName.measure_area_priority_grant => some TableName.measure_area_priority
  | _ => none

/-- Depth of a relation within a given plan: 2 when the relation depends on
another relation that is itself part of the plan (a grandchild of the
deleted entity), 1 otherwise. -/
def relDepthIn (p : CascadePlan) (t : TableName) : Nat :=
  match dependsOn t with
  | some parent => if parent ∈ planTables p then 2 else 1
  | none => 1

/-- Maximum dependency depth over a plan's statements. -/
def planMaxDepth (p : CascadePlan) : Nat :=
  (planTables p).foldr (fun t m => max (relDepthIn p t) m) 0

/-- One record of the snapshot metadata journal
(`data/backups/snapshot_metadata.json`), as written by
`BackupManager.create_snapshot`.  The real `snapshot_id` is a string built
from the second-resolution timestamp plus the optional labels; since the
labels are also stored separately, the id is modelled as the timestamp
itself (`sid = timestamp`), with distinct creation times giving distinct
ids. -/
structure SnapEntry where
  sid : Nat
  timestamp : Nat
  description : String
  opType : Option String
  entityType : Option String
  entityId : Option Nat
deriving DecidableEq, Repr

/-- The snapshot metadata journal file: missing, present but unparseable
(`json.JSONDecodeError`), or parsed into its list of records. -/
inductive JournalFile where
  | absent
  | corrupt
  | parsed (entries : List SnapEntry)
deriving DecidableEq, Repr

/-- Records of a journal file; the empty list when the file is missing or
unparseable. -/
def journalEntries : JournalFile → List SnapEntry
  | JournalFile.parsed l => l
  | _ => []

/-- State of the backup subsystem, over an abstract file-content type `C`:
the capability flag, the live database file, the journal file, the snapshot
files on disk (`sid` to content), whether the singleton database connection
is open, and the timestamp clock.  Timestamps have one-second resolution in
the code; consecutive operations are modelled as happening at distinct,
increasing timestamps. -/
structure BackupSt (C : Type) where
  enabled : Bool
  live : C
  journal : JournalFile
  files : List (Nat × C)
  connOpen : Bool
  clock : Nat
deriving DecidableEq, Repr

/-- Delete a snapshot file (`Path.unlink`). -/
def removeFile {C : Type} (sid : Nat) : List (Nat × C) → List (Nat × C)
  | [] => []
  | f :: t => if f.1 = sid then removeFile sid t else f :: removeFile sid t

/-- Write a snapshot file (`shutil.copy2` to the snapshot path, overwriting
any file of the same name). -/
def putFile {C : Type} (sid : Nat) (c : C) (fs : List (Nat × C)) : List (Nat × C) :=
  (sid, c) :: removeFile sid fs

/-- Look up a snapshot file on disk. -/
def getFile? {C : Type} (sid : Nat) : List (Nat × C) → Option C
  | [] => none
  | f :: t => if f.1 = sid then some f.2 else getFile? sid t

/-- BackupManager._save_metadata (config/backup.py, lines 328-347): read the
journal if it exists, start from an empty list when it is missing or
unparseable ("Corrupted metadata file, starting fresh"), append the new
record, rewrite the file. -/
def saveMetadata (jf : JournalFile) (e : SnapEntry) : JournalFile :=
  match jf with
  | JournalFile.parsed l => JournalFile.parsed (l ++ [e])
  | _ => JournalFile.parsed [e]

/-- BackupManager.create_snapshot (config/backup.py, lines 82-149): when
disabled return `None` without touching anything; otherwise copy the live
file to a new snapshot file named by the timestamp, append one metadata
record, and return the snapshot id. -/
def create_snapshot {C : Type} (desc : String) (opType entityType : Option String)
    (entityId : Option Nat) (st : BackupSt C) : BackupSt C × Option Nat :=
  if st.enabled = false then (st, none)
  else
    let sid := st.clock
    let e : SnapEntry :=
      { sid := sid, timestamp := st.clock, description := desc
        opType := opType, entityType := entityType, entityId := entityId }
    ({ st with
        files := putFile sid st.live st.files
        journal := saveMetadata st.journal e
        clock := st.clock + 1 }, some sid)

/-- Insertion step of the newest-first sort used by `list_snapshots`
(`snapshots.sort(key=..., reverse=True)`). -/
def insertByTsDesc (e : SnapEntry) : List SnapEntry → List SnapEntry
  | [] => [e]
  | x :: xs =>
    if e.timestamp ≤ x.timestamp then x :: insertByTsDesc e xs
    else e :: x :: xs

/-- Sort journal records newest-first by timestamp. -/
def sortByTsDesc : List SnapEntry → List SnapEntry
  | [] => []
  | x :: xs => insertByTsDesc x (sortByTsDesc xs)

/-- BackupManager.list_snapshots (config/backup.py, lines 151-197): empty
when disabled, when the journal file is missing, or when it fails to parse;
otherwise filter by the optional labels, sort newest-first by timestamp,
then truncate to `limit`. -/
def list_snapshots {C : Type} (opType entityType : Option String)
    (limit : Option Nat) (st : BackupSt C) : List SnapEntry :=
  if st.enabled = false then []
  else
    match st.journal with
    | JournalFile.parsed l =>
      let l1 := match opType with
        | some t => l.filter (fun e => e.opType == some t)
        | none => l
      let l2 := match entityType with
        | some t => l1.filter (fun e => e.entityType == some t)
        | none => l1
      let sorted := sortByTsDesc l2
      match limit with
      | some n => sorted.take n
      | none => sorted
    | _ => []

/-- Error outcomes of `restore_snapshot`: the `RuntimeError` when backups
are disabled, the `ValueError` when the id has no journal record, the
`FileNotFoundError` when the snapshot file is missing, and a propagated
integrity-check failure. -/
inductive RestoreError where
  | disabled
  | snapshotNotFound
  | snapshotFileMissing
  | integrityFailed
deriving DecidableEq, Repr

/-- BackupManager.restore_snapshot (config/backup.py, lines 199-273),
parameterized by the integrity check `integrityOk` (the
`SELECT COUNT(*) FROM measure` probe of `_verify_database_integrity`):
locate the journal record and its file, create the `pre_restore` safety
snapshot of the current live state, close the connection, replace the live
file with the snapshot content, reconnect, and verify integrity, failures
propagating. -/
def restore_snapshot {C : Type} (integrityOk : C → Bool) (sid : Nat)
    (st : BackupSt C) : Except RestoreError (BackupSt C) :=
  if st.enabled = false then Except.error RestoreError.disabled
  else
    match (list_snapshots none none none st).find? (fun e => e.sid == sid) with
    | none => Except.error RestoreError.snapshotNotFound
    | some e =>
      match getFile? e.sid st.files with
      | none => Except.error RestoreError.snapshotFileMissing
      | some c =>
        let st1 := (create_snapshot "Pre-restore safety backup"
          (some "pre_restore") none none st).1
        let st2 := { st1 with connOpen := false }
        let st3 := { st2 with live := c }
        let st4 := { st3 with connOpen := true }
        if integrityOk c then Except.ok st4
        else Except.error RestoreError.integrityFailed

/-- File-deletion loop of `cleanup_old_snapshots`: unlink each snapshot file
beyond the keep count, counting only the files that existed. -/
def deleteFilesLoop {C : Type} (toDelete : List SnapEntry)
    (fs : List (Nat × C)) (cnt : Nat) : List (Nat × C) × Nat :=
  match toDelete with
  | [] => (fs, cnt)
  | e :: rest =>
    match getFile? e.sid fs with
    | some _ => deleteFilesLoop rest (removeFile e.sid fs) (cnt + 1)
    | none => deleteFilesLoop rest fs cnt

/-- BackupManager.cleanup_old_snapshots (config/backup.py, lines 275-326):
zero when disabled; when at most `keep_count` snapshots are listed, return
zero without touching anything; otherwise delete the files of the entries
beyond `keep_count` in the newest-first order, rewrite the journal to the
retained entries, and return the number of files deleted. -/
def cleanup_old_snapshots {C : Type} (keepCount : Nat) (st : BackupSt C) :
    BackupSt C × Nat :=
  if st.enabled = false then (st, 0)
  else
    let snaps := list_snapshots none none none st
    if snaps.length ≤ keepCount then (st, 0)
    else
      let res := deleteFilesLoop (snaps.drop keepCount) st.files 0
      ({ st with files := res.1, journal := JournalFile.parsed (snaps.take keepCount) },
        res.2)

/-- Row counts targeted by the seven statements of the measure cascade, in
statement order: rows of each relation whose `measure_id` column matches,
ending with the measure row itself. -/
def measureStepCounts (id : Nat) : List (DB → Nat) :=
  [ fun db => countBy Prod.fst id db.measure_has_type
  , fun db => countBy Prod.fst id db.measure_has_stakeholder
  , fun db => countBy Prod.fst id db.measure_area_priority_grant
  , fun db => countBy Prod.fst id db.measure_area_priority
  , fun db => countBy Prod.fst id db.measure_has_benefits
  , fun db => countBy Prod.fst id db.measure_has_species
  , fun db => countBy (fun x => x) id db.measure ]

/-- Row counts targeted by the four statements of the priority cascade, in
statement order. -/
def priorityStepCounts (id : Nat) : List (DB → Nat) :=
  [ fun db => countBy mapgPriority id db.measure_area_priority_grant
  , fun db => countBy mapPriority id db.measure_area_priority
  , fun db => countBy mapPriority id db.species_area_priority
  , fun db => countBy (fun x => x) id db.priority ]

/-- Row counts targeted by the two statements of the grant cascade, in
statement order. -/
def grantStepCounts (id : Nat) : List (DB → Nat) :=
  [ fun db => countBy mapgGrant id db.measure_area_priority_grant
  , fun db => countBy (fun x => x) id db.grant_table ]

/-- Row counts targeted by the three statements of the habitat cascade, in
statement order. -/
def habitatStepCounts (id : Nat) : List (DB → Nat) :=
  [ fun db => countBy Prod.fst id db.habitat_creation_area
  , fun db => countBy Prod.fst id db.habitat_management_area
  , fun db => countBy (fun x => x) id db.habitat ]

/-- Concrete database used to exercise the failure-injection and
duplicate-link properties: measure 1 with rows in every measure relation. -/
def dbSmall : DB :=
  { DB.empty with
      measure := [1]
      measure_has_type := [(1, 7), (1, 8)]
      measure_has_stakeholder := [(1, 3)]
      measure_has_benefits := [(1, 4)]
      measure_has_species := [(1, 9)]
      measure_area_priority := [(1, 2, 6)]
      measure_area_priority_grant := [(1, 2, 6, 11)]
      species_area_priority := [(9, 2, 6)]
      priority := [6] }

/-- Concrete database with two species and no species id 5, used to
exercise deletion of a nonexistent id. -/
def dbNoFive : DB := { DB.empty with species := [1, 2] }

/-- Concrete enabled backup state used to exercise the snapshot manager:
live content 10, one existing journal record with an on-disk file. -/
def stBackup : BackupSt Nat :=
  { enabled := true
    live := 10
    journal := JournalFile.parsed
      [ { sid := 3, timestamp := 3, description := "older"
          opType := some "manual", entityType := none, entityId := none } ]
    files := [(3, 7)]
    connOpen := true
    clock := 5 }

/-- Concrete enabled backup state whose journal file is unparseable. -/
def stCorrupt : BackupSt Nat :=
  { enabled := true
    live := 10
    journal := JournalFile.corrupt
    files := [(3, 7), (2, 6)]
    connOpen := true
    clock := 5 }

/-- Concrete enabled backup state with three journal records, used to
exercise retention cleanup. -/
def stCleanup : BackupSt Nat :=
  { enabled := true
    live := 10
    journal := JournalFile.parsed
      [ { sid := 1, timestamp := 1, description := "first"
          opType := none, entityType := none, entityId := none }
      , { sid := 4, timestamp := 4, description := "third"
          opType := none, entityType := none, entityId := none }
      , { sid := 2, timestamp := 2, description := "second"
          opType := none, entityType := none, entityId := none } ]
    files := [(1, 11), (2, 12), (4, 14)]
    connOpen := true
    clock := 5 }

/-! Helper lemmas shared by the claim theorems. -/

theorem countBy_delBy_same {α : Type} (key : α → Nat) (id : Nat) (l : List α) :
    countBy key id (delBy key id l) = 0 := by
  induction l with
  | nil => rfl
  | cons a t ih =>
    cases hka : (key a == id) <;>
      simp [delBy, countBy, List.filter_cons, hka, ih]

theorem delBy_eq_self_of_countBy_zero {α : Type} {key : α → Nat} {id : Nat}
    {l : List α} (h : countBy key id l = 0) : delBy key id l = l := by
  induction l with
  | nil => rfl
  | cons a t ih =>
    cases hka : (key a == id) with
    | false =>
      have ht : countBy key id t = 0 := by
        simpa [countBy, List.filter_cons, hka] using h
      simp [delBy, List.filter_cons, hka] at ih ⊢
      exact ih ht
    | true => simp [countBy, List.filter_cons, hka] at h

theorem saveMetadata_eq (jf : JournalFile) (e : SnapEntry) :
    saveMetadata jf e = JournalFile.parsed (journalEntries jf ++ [e]) := by
  cases jf <;> rfl

theorem mem_insertByTsDesc {x e : SnapEntry} {l : List SnapEntry} :
    x ∈ insertByTsDesc e l ↔ x = e ∨ x ∈ l := by
  induction l with
  | nil => simp [insertByTsDesc]
  | cons a t ih =>
    by_cases h : e.timestamp ≤ a.timestamp
    · simp only [insertByTsDesc, if_pos h, List.mem_cons, ih]
      tauto
    · simp only [insertByTsDesc, if_neg h, List.mem_cons]

theorem perm_insertByTsDesc (e : SnapEntry) (l : List SnapEntry) :
    List.Perm (insertByTsDesc e l) (e :: l) := by
  induction l with
  | nil => rfl
  | cons a t ih =>
    by_cases h : e.timestamp ≤ a.timestamp
    · simp only [insertByTsDesc, if_pos h]
      exact (ih.cons a).trans (List.Perm.swap e a t)
    · simp [insertByTsDesc, h]

theorem perm_sortByTsDesc (l : List SnapEntry) :
    List.Perm (sortByTsDesc l) l := by
  induction l with
  | nil => rfl
  | cons a t ih =>
    exact (perm_insertByTsDesc a (sortByTsDesc t)).trans (ih.cons a)

theorem length_sortByTsDesc (l : List SnapEntry) :
    (sortByTsDesc l).length = l.length :=
  (perm_sortByTsDesc l).length_eq

theorem mem_sortByTsDesc {x : SnapEntry} {l : List SnapEntry} :
    x ∈ sortByTsDesc l ↔ x ∈ l :=
  (perm_sortByTsDesc l).mem_iff

theorem pairwise_insertByTsDesc {e : SnapEntry} {l : List SnapEntry}
    (h : l.Pairwise (fun a b => b.timestamp ≤ a.timestamp)) :
    (insertByTsDesc e l).Pairwise (fun a b => b.timestamp ≤ a.timestamp) := by
  induction l with
  | nil => simp [insertByTsDesc]
  | cons a t ih =>
    rcases List.pairwise_cons.mp h with ⟨ha, ht⟩
    by_cases hle : e.timestamp ≤ a.timestamp
    · simp only [insertByTsDesc, hle, if_pos]
      refine List.pairwise_cons.mpr ⟨?_, ih ht⟩
      intro x hx
      rcases mem_insertByTsDesc.mp hx with rfl | hx
      · exact hle
      · exact ha x hx
    · simp only [insertByTsDesc, hle, if_neg (by exact hle)]
      refine List.pairwise_cons.mpr ⟨?_, h⟩
      intro x hx
      rcases List.mem_cons.mp hx with rfl | hx
      · exact Nat.le_of_lt (Nat.lt_of_not_le hle)
      · exact Nat.le_trans (ha x hx) (Nat.le_of_lt (Nat.lt_of_not_le hle))

theorem pairwise_sortByTsDesc (l : List SnapEntry) :
    (sortByTsDesc l).Pairwise (fun a b => b.timestamp ≤ a.timestamp) := by
  induction l with
  | nil => simp [sortByTsDesc]
  | cons a t ih => exact pairwise_insertByTsDesc ih

theorem find?_unique {α : Type} (p : α → Bool) (l : List α) (e : α)
    (he : e ∈ l) (hpe : p e = true)
    (hu : ∀ x ∈ l, p x = true → x = e) : l.find? p = some e := by
  induction l with
  | nil => cases he
  | cons a t ih =>
    cases hpa : p a with
    | true =>
      have ha : a = e := hu a (List.mem_cons_self a t) hpa
      subst ha
      simp [List.find?, hpa]
    | false =>
      have het : e ∈ t := by
        rcases List.mem_cons.mp he with rfl | h
        · rw [hpe] at hpa; cases hpa
        · exact h
      have hut : ∀ x ∈ t, p x = true → x = e := fun x hx => hu x (List.mem_cons_of_mem a hx)
      simp [List.find?, hpa]
      exact ih het hut

theorem getFile?_putFile_self {C : Type} (sid : Nat) (c : C) (fs : List (Nat × C)) :
    getFile? sid (putFile sid c fs) = some c := by
  simp [getFile?, putFile]

theorem getFile?_removeFile_self {C : Type} (sid : Nat) (fs : List (Nat × C)) :
    getFile? sid (removeFile sid fs) = none := by
  induction fs with
  | nil => rfl
  | cons f t ih =>
    by_cases hf : f.1 = sid <;> simp [removeFile, getFile?, hf, ih]

theorem getFile?_removeFile_ne {C : Type} {sid sid2 : Nat} (h : sid ≠ sid2)
    (fs : List (Nat × C)) : getFile? sid (removeFile sid2 fs) = getFile? sid fs := by
  induction fs with
  | nil => rfl
  | cons f t ih =>
    by_cases h2 : f.1 = sid2
    · have h1 : f.1 ≠ sid := by rw [h2]; exact fun hc => h hc.symm
      simp [removeFile, getFile?, h2, h1, ih, h, Ne.symm h]
    · by_cases h1 : f.1 = sid
      · simp [removeFile, getFile?, h2, h1, h, Ne.symm h]
      · simp [removeFile, getFile?, h2, h1, ih]

theorem mem_removeFile_of_ne {C : Type} {f : Nat × C} {sid : Nat}
    {fs : List (Nat × C)} (hf : f ∈ fs) (h : f.1 ≠ sid) :
    f ∈ removeFile sid fs := by
  induction fs with
  | nil => cases hf
  | cons g t ih =>
    rcases List.mem_cons.mp hf with rfl | hft
    · simp [removeFile, h]
    · by_cases hg : g.1 = sid
      · simp only [removeFile, if_pos hg]
        exact ih hft
      · simp only [removeFile, if_neg hg]
        exact List.mem_cons_of_mem g (ih hft)

theorem getFile?_removeFile_none {C : Type} {s s2 : Nat} {fs : List (Nat × C)}
    (h : getFile? s fs = none) : getFile? s (removeFile s2 fs) = none := by
  by_cases hs : s = s2
  · subst hs
    exact getFile?_removeFile_self s fs
  · rw [getFile?_removeFile_ne hs]
    exact h

theorem getFile?_deleteFilesLoop_none {C : Type} (td : List SnapEntry)
    (fs : List (Nat × C)) (cnt : Nat) (s : Nat)
    (h : getFile? s fs = none) :
    getFile? s (deleteFilesLoop td fs cnt).1 = none := by
  induction td generalizing fs cnt with
  | nil => simpa [deleteFilesLoop] using h
  | cons e rest ih =>
    cases hc : getFile? e.sid fs with
    | some c =>
      simp only [deleteFilesLoop, hc]
      exact ih (removeFile e.sid fs) (cnt + 1) (getFile?_removeFile_none h)
    | none =>
      simp only [deleteFilesLoop, hc]
      exact ih fs cnt h

theorem deleteFilesLoop_spec {C : Type} (toDelete : List SnapEntry)
    (fs : List (Nat × C)) (cnt : Nat)
    (hdist : toDelete.Pairwise (fun a b => a.sid ≠ b.sid))
    (hex : ∀ e ∈ toDelete, (getFile? e.sid fs).isSome = true) :
    (deleteFilesLoop toDelete fs cnt).2 = cnt + toDelete.length ∧
    ∀ e ∈ toDelete, getFile? e.sid (deleteFilesLoop toDelete fs cnt).1 = none := by
  induction toDelete generalizing fs cnt with
  | nil => simp [deleteFilesLoop]
  | cons e rest ih =>
    rcases List.pairwise_cons.mp hdist with ⟨hne, hrest⟩
    have hes : (getFile? e.sid fs).isSome = true :=
      hex e (List.mem_cons_self e rest)
    rcases Option.isSome_iff_exists.mp hes with ⟨c, hc⟩
    have hstep : deleteFilesLoop (e :: rest) fs cnt
        = deleteFilesLoop rest (removeFile e.sid fs) (cnt + 1) := by
      simp [deleteFilesLoop, hc]
    have hex2 : ∀ x ∈ rest, (getFile? x.sid (removeFile e.sid fs)).isSome = true := by
      intro x hx
      rw [getFile?_removeFile_ne (fun hc2 => hne x hx hc2.symm)]
      exact hex x (List.mem_cons_of_mem e hx)
    have hmain := ih (removeFile e.sid fs) (cnt + 1) hrest hex2
    constructor
    · rw [hstep, hmain.1]
      simp [Nat.add_assoc, Nat.add_comm 1 rest.length]
    · intro x hx
      rcases List.mem_cons.mp hx with rfl | hx2
      · rw [hstep]
        exact getFile?_deleteFilesLoop_none rest _ _ _
          (getFile?_removeFile_self x.sid fs)
      · rw [hstep]
        exact hmain.2 x hx2

/-! Claim theorems. -/

/-- C1, counterexample: the cascade strategy is not derived from the plan's
maximum dependency depth.  The area plan contains the depth-2 relation
`measure_area_priority_grant` yet runs inside one atomic transaction, and
the habitat and grant plans have maximum depth 1 yet run as sequential,
independently committed steps — the opposite of the claimed rule on all
three entity types. -/
theorem c1_depth_rule_counterexample :
    planMaxDepth (areaPlan 1) = 2 ∧ (areaPlan 1).mode = ExecMode.atomic ∧
    planMaxDepth (habitatPlan 1) = 1 ∧ (habitatPlan 1).mode = ExecMode.sequential ∧
    planMaxDepth (grantPlan 1) = 1 ∧ (grantPlan 1).mode = ExecMode.sequential :=
  ⟨rfl, rfl, rfl, rfl, rfl, rfl⟩

/-- C1, amended: each entity's cascade strategy is hardcoded in its model
class rather than derived from depth.  The measure and priority plans
(maximum depth 2) run sequentially; the area plan (maximum depth 2) runs
atomically; the grant and habitat plans (maximum depth 1) run sequentially;
the species plan (maximum depth 1) runs atomically. -/
theorem c1_amended_hardcoded_modes (id : Nat) :
    planMaxDepth (measurePlan id) = 2 ∧ (measurePlan id).mode = ExecMode.sequential ∧
    planMaxDepth (priorityPlan id) = 2 ∧ (priorityPlan id).mode = ExecMode.sequential ∧
    planMaxDepth (areaPlan id) = 2 ∧ (areaPlan id).mode = ExecMode.atomic ∧
    planMaxDepth (grantPlan id) = 1 ∧ (grantPlan id).mode = ExecMode.sequential ∧
    planMaxDepth (habitatPlan id) = 1 ∧ (habitatPlan id).mode = ExecMode.sequential ∧
    planMaxDepth (speciesPlan id) = 1 ∧ (speciesPlan id).mode = ExecMode.atomic :=
  ⟨rfl, rfl, rfl, rfl, rfl, rfl, rfl, rfl, rfl, rfl, rfl, rfl⟩

/-- C3: for every measure id and database state, the measure cascade issues
exactly its seven delete statements in the fixed order measure_has_type,
measure_has_stakeholder, measure_area_priority_grant, measure_area_priority,
measure_has_benefits, measure_has_species, measure; it runs in sequential
mode; and on the success path it reports success with zero remaining rows
for the id in all six relations and no remaining measure row. -/
theorem c3_measure_cascade_order_and_post (id : Nat) (db : DB) :
    planTables (measurePlan id) =
      [TableName.measure_has_type, TableName.measure_has_stakeholder,
       TableName.measure_area_priority_grant, TableName.measure_area_priority,
       TableName.measure_has_benefits, TableName.measure_has_species,
       TableName.measure] ∧
    (measurePlan id).mode = ExecMode.sequential ∧
    (runPlan (measurePlan id) none db).2 = true ∧
    countBy Prod.fst id (runPlan (measurePlan id) none db).1.measure_has_type = 0 ∧
    countBy Prod.fst id (runPlan (measurePlan id) none db).1.measure_has_stakeholder = 0 ∧
    countBy Prod.fst id (runPlan (measurePlan id) none db).1.measure_area_priority_grant = 0 ∧
    countBy Prod.fst id (runPlan (measurePlan id) none db).1.measure_area_priority = 0 ∧
    countBy Prod.fst id (runPlan (measurePlan id) none db).1.measure_has_benefits = 0 ∧
    countBy Prod.fst id (runPlan (measurePlan id) none db).1.measure_has_species = 0 ∧
    countBy (fun x => x) id (runPlan (measurePlan id) none db).1.measure = 0 := by
  refine ⟨rfl, rfl, rfl, ?_, ?_, ?_, ?_, ?_, ?_, ?_⟩ <;>
    simp [runPlan, stepFuns, measurePlan, applySteps, countBy_delBy_same]

/-- C4, counterexample: the species delete action executes its cascade
delete statements without any snapshot step, so not every destructive
cascade is preceded by a snapshot; the area and habitat delete actions are
snapshot-free as well. -/
theorem c4_snapshot_counterexample :
    UiOp.snapshot ∉ speciesDeleteAction ∧
    UiOp.dbDelete TableName.species_area_priority ∈ speciesDeleteAction ∧
    UiOp.snapshot ∉ areaDeleteAction ∧
    UiOp.snapshot ∉ habitatDeleteAction := by decide

/-- C4, amended: only the measure, priority and grant cascade deletions are
preceded by a snapshot (via the `with_snapshot` decorator, modelled from the
spec); the area, habitat and species delete actions remove rows without any
snapshot having been created. -/
theorem c4_amended_partial_snapshot_coverage :
    measureDeleteAction.head? = some UiOp.snapshot ∧
    priorityDeleteAction.head? = some UiOp.snapshot ∧
    grantDeleteAction.head? = some UiOp.snapshot ∧
    UiOp.snapshot ∉ areaDeleteAction ∧
    UiOp.snapshot ∉ habitatDeleteAction ∧
    UiOp.snapshot ∉ speciesDeleteAction := by decide

/-- C5: `update_with_relationships` does not distinguish "clear" from
"don't touch".  Evaluating the code at a measure with existing rows in
all three simple child relations and passing `None` for every relation list
deletes every one of those rows (the transaction's delete statements run
unconditionally and `if measure_types:` skips the re-inserts for `None`),
while the claim requires the rows to be left unchanged. -/
theorem c5_none_clears_relations :
    dbSmall.measure_has_type = [(1, 7), (1, 8)] ∧
    dbSmall.measure_has_stakeholder = [(1, 3)] ∧
    dbSmall.measure_has_benefits = [(1, 4)] ∧
    (updateWithRelationships 1 none none none dbSmall).measure_has_type = [] ∧
    (updateWithRelationships 1 none none none dbSmall).measure_has_stakeholder = [] ∧
    (updateWithRelationships 1 none none none dbSmall).measure_has_benefits = [] ∧
    updateWithRelationships 1 none none none dbSmall
      = updateWithRelationships 1 (some []) (some []) (some []) dbSmall := by
  decide

/-- C6: for the four sequential-mode plans (measure, 7 steps; priority,
4 steps; grant, 2 steps; habitat, 3 steps), injecting a failure at step k
stops the plan reporting failure, leaves the target relations of steps
1..k-1 at zero rows for the id (those deletes stay committed), and leaves
the target relations of steps k..n at exactly their pre-operation row
counts. -/
theorem c6_sequential_failure_partial_commit (db : DB) (id k k2 k3 k4 : Nat)
    (hk1 : 1 ≤ k) (hk7 : k ≤ 7) (hk21 : 1 ≤ k2) (hk24 : k2 ≤ 4)
    (hk31 : 1 ≤ k3) (hk32 : k3 ≤ 2) (hk41 : 1 ≤ k4) (hk43 : k4 ≤ 3) :
    ((runPlan (measurePlan id) (some k) db).2 = false ∧
     (∀ c ∈ (measureStepCounts id).take (k - 1),
        c (runPlan (measurePlan id) (some k) db).1 = 0) ∧
     (∀ c ∈ (measureStepCounts id).drop (k - 1),
        c (runPlan (measurePlan id) (some k) db).1 = c db)) ∧
    ((runPlan (priorityPlan id) (some k2) db).2 = false ∧
     (∀ c ∈ (priorityStepCounts id).take (k2 - 1),
        c (runPlan (priorityPlan id) (some k2) db).1 = 0) ∧
     (∀ c ∈ (priorityStepCounts id).drop (k2 - 1),
        c (runPlan (priorityPlan id) (some k2) db).1 = c db)) ∧
    ((runPlan (grantPlan id) (some k3) db).2 = false ∧
     (∀ c ∈ (grantStepCounts id).take (k3 - 1),
        c (runPlan (grantPlan id) (some k3) db).1 = 0) ∧
     (∀ c ∈ (grantStepCounts id).drop (k3 - 1),
        c (runPlan (grantPlan id) (some k3) db).1 = c db)) ∧
    ((runPlan (habitatPlan id) (some k4) db).2 = false ∧
     (∀ c ∈ (habitatStepCounts id).take (k4 - 1),
        c (runPlan (habitatPlan id) (some k4) db).1 = 0) ∧
     (∀ c ∈ (habitatStepCounts id).drop (k4 - 1),
        c (runPlan (habitatPlan id) (some k4) db).1 = c db)) := by
  refine ⟨⟨?_, ?_⟩, ⟨?_, ?_⟩, ⟨?_, ?_⟩, ⟨?_, ?_⟩⟩
  · simp [runPlan, stepFuns, measurePlan, hk1, hk7]
  · interval_cases k <;>
      simp [measureStepCounts, runPlan, stepFuns, measurePlan, applySteps,
        countBy_delBy_same]
  · simp [runPlan, stepFuns, priorityPlan, hk21, hk24]
  · interval_cases k2 <;>
      simp [priorityStepCounts, runPlan, stepFuns, priorityPlan, applySteps,
        countBy_delBy_same]
  · simp [runPlan, stepFuns, grantPlan, hk31, hk32]
  · interval_cases k3 <;>
      simp [grantStepCounts, runPlan, stepFuns, grantPlan, applySteps,
        countBy_delBy_same]
  · simp [runPlan, stepFuns, habitatPlan, hk41, hk43]
  · interval_cases k4 <;>
      simp [habitatStepCounts, runPlan, stepFuns, habitatPlan, applySteps,
        countBy_delBy_same]

/-- C6, witness at measure step 3, priority step 2, grant step 2 and
habitat step 1 in `dbSmall` with id 1. -/
theorem c6_sequential_failure_witness :
    (1 ≤ 3 ∧ 3 ≤ 7 ∧ 1 ≤ 2 ∧ 2 ≤ 4 ∧ 1 ≤ 2 ∧ 2 ≤ 2 ∧ 1 ≤ 1 ∧ 1 ≤ 3) ∧
    (((runPlan (measurePlan 1) (some 3) dbSmall).2 = false ∧
      (∀ c ∈ (measureStepCounts 1).take (3 - 1),
         c (runPlan (measurePlan 1) (some 3) dbSmall).1 = 0) ∧
      (∀ c ∈ (measureStepCounts 1).drop (3 - 1),
         c (runPlan (measurePlan 1) (some 3) dbSmall).1 = c dbSmall)) ∧
     ((runPlan (priorityPlan 1) (some 2) dbSmall).2 = false ∧
      (∀ c ∈ (priorityStepCounts 1).take (2 - 1),
         c (runPlan (priorityPlan 1) (some 2) dbSmall).1 = 0) ∧
      (∀ c ∈ (priorityStepCounts 1).drop (2 - 1),
         c (runPlan (priorityPlan 1) (some 2) dbSmall).1 = c dbSmall)) ∧
     ((runPlan (grantPlan 1) (some 2) dbSmall).2 = false ∧
      (∀ c ∈ (grantStepCounts 1).take (2 - 1),
         c (runPlan (grantPlan 1) (some 2) dbSmall).1 = 0) ∧
      (∀ c ∈ (grantStepCounts 1).drop (2 - 1),
         c (runPlan (grantPlan 1) (some 2) dbSmall).1 = c dbSmall)) ∧
     ((runPlan (habitatPlan 1) (some 1) dbSmall).2 = false ∧
      (∀ c ∈ (habitatStepCounts 1).take (1 - 1),
         c (runPlan (habitatPlan 1) (some 1) dbSmall).1 = 0) ∧
      (∀ c ∈ (habitatStepCounts 1).drop (1 - 1),
         c (runPlan (habitatPlan 1) (some 1) dbSmall).1 = c dbSmall))) :=
  ⟨by decide,
   c6_sequential_failure_partial_commit dbSmall 1 3 2 2 1
     (by decide) (by decide) (by decide) (by decide)
     (by decide) (by decide) (by decide) (by decide)⟩

/-- C7, counterexample: deleting a species id that does not exist completes
successfully (returns `True`) while removing nothing; no NotFound error kind
is reported anywhere in the code path. -/
theorem c7_notfound_counterexample :
    dbNoFive.species = [1, 2] ∧
    (runPlan (speciesPlan 5) none dbNoFive).2 = true ∧
    (runPlan (speciesPlan 5) none dbNoFive).1 = dbNoFive := by decide

/-- C7, amended: for every entity id absent from the species table and
unreferenced by the two species relations, the species cascade delete
returns success and leaves the database exactly unchanged — a silent no-op,
with no NotFound outcome distinguishable from a real deletion. -/
theorem c7_amended_silent_noop (db : DB) (id : Nat)
    (h1 : countBy (fun x => x) id db.species = 0)
    (h2 : countBy Prod.fst id db.species_area_priority = 0)
    (h3 : countBy Prod.snd id db.measure_has_species = 0) :
    (runPlan (speciesPlan id) none db).2 = true ∧
    (runPlan (speciesPlan id) none db).1 = db := by
  have e1 := delBy_eq_self_of_countBy_zero h1
  have e2 := delBy_eq_self_of_countBy_zero h2
  have e3 := delBy_eq_self_of_countBy_zero h3
  constructor
  · rfl
  · simp [runPlan, stepFuns, speciesPlan, applySteps, e1, e2, e3]

/-- C7, witness for the amended theorem at species id 5 in `dbNoFive`. -/
theorem c7_amended_witness :
    (countBy (fun x => x) 5 dbNoFive.species = 0 ∧
     countBy Prod.fst 5 dbNoFive.species_area_priority = 0 ∧
     countBy Prod.snd 5 dbNoFive.measure_has_species = 0) ∧
    ((runPlan (speciesPlan 5) none dbNoFive).2 = true ∧
     (runPlan (speciesPlan 5) none dbNoFive).1 = dbNoFive) :=
  ⟨by decide, c7_amended_silent_noop dbNoFive 5 (by decide) (by decide) (by decide)⟩

/-- C8: starting from a state without the tuple, `create_link` succeeds and
stores the row; calling it again with the identical tuple reports the
duplicate-link error (existence is checked before inserting), and exactly
one row for the tuple is stored. -/
theorem c8_duplicate_link (db : DB) (m a p : Nat)
    (h : countMAPTuple m a p db = 0) :
    createMAPLink m a p db = Except.ok (insertMAP m a p db) ∧
    createMAPLink m a p (insertMAP m a p db) = Except.error LinkError.duplicateLink ∧
    countMAPTuple m a p (insertMAP m a p db) = 1 := by
  simp only [countMAPTuple] at h
  have hcount : countMAPTuple m a p (insertMAP m a p db) = 1 := by
    simp [countMAPTuple, insertMAP, List.filter_append, h]
  have hx : linkExistsMAP m a p db = false := by
    simp [linkExistsMAP, h]
  have hx2 : linkExistsMAP m a p (insertMAP m a p db) = true := by
    simp only [linkExistsMAP, insertMAP]
    simp [List.filter_append, h]
  refine ⟨?_, ?_, hcount⟩
  · simp [createMAPLink, hx]
  · simp [createMAPLink, hx2]

/-- C8, witness at tuple (1, 2, 3) in the empty database. -/
theorem c8_duplicate_link_witness :
    countMAPTuple 1 2 3 DB.empty = 0 ∧
    (createMAPLink 1 2 3 DB.empty = Except.ok (insertMAP 1 2 3 DB.empty) ∧
     createMAPLink 1 2 3 (insertMAP 1 2 3 DB.empty)
       = Except.error LinkError.duplicateLink ∧
     countMAPTuple 1 2 3 (insertMAP 1 2 3 DB.empty) = 1) :=
  ⟨by decide, c8_duplicate_link DB.empty 1 2 3 (by decide)⟩

/-- C10: when the journal file exists but is unparseable, the next
`create_snapshot` still succeeds, and it rewrites the journal to contain
exactly the one new record, silently discarding every previously recorded
entry, while all previously written snapshot files remain on disk. -/
theorem c10_corrupt_journal_reset {C : Type} (st : BackupSt C)
    (desc : String) (ot et : Option String) (eid : Option Nat)
    (hen : st.enabled = true) (hj : st.journal = JournalFile.corrupt)
    (hfresh : ∀ f ∈ st.files, f.1 ≠ st.clock) :
    (create_snapshot desc ot et eid st).2 = some st.clock ∧
    journalEntries (create_snapshot desc ot et eid st).1.journal
      = [{ sid := st.clock, timestamp := st.clock, description := desc,
           opType := ot, entityType := et, entityId := eid }] ∧
    ∀ f ∈ st.files, f ∈ (create_snapshot desc ot et eid st).1.files := by
  refine ⟨?_, ?_, ?_⟩
  · simp [create_snapshot, hen]
  · simp [create_snapshot, hen, hj, saveMetadata, journalEntries]
  · intro f hf
    simp only [create_snapshot, hen, Bool.true_eq_false, if_false, putFile]
    exact List.mem_cons_of_mem _ (mem_removeFile_of_ne hf (hfresh f hf))

/-- C10, witness at the corrupt-journal state `stCorrupt`. -/
theorem c10_corrupt_journal_witness :
    (stCorrupt.enabled = true ∧ stCorrupt.journal = JournalFile.corrupt ∧
     ∀ f ∈ stCorrupt.files, f.1 ≠ stCorrupt.clock) ∧
    ((create_snapshot "fresh" none none none stCorrupt).2 = some stCorrupt.clock ∧
     journalEntries (create_snapshot "fresh" none none none stCorrupt).1.journal
       = [{ sid := stCorrupt.clock, timestamp := stCorrupt.clock,
            description := "fresh", opType := none, entityType := none,
            entityId := none }] ∧
     ∀ f ∈ stCorrupt.files,
       f ∈ (create_snapshot "fresh" none none none stCorrupt).1.files) :=
  ⟨by decide,
   c10_corrupt_journal_reset stCorrupt "fresh" none none none
     (by decide) (by decide) (by decide)⟩

/-- C9: `cleanup_old_snapshots K` leaves exactly `min K N` journal entries.
When `N ≤ K` it changes nothing and returns 0; when `K < N` the journal is
rewritten to the `K` newest-by-timestamp entries, the snapshot files of the
remaining entries are deleted, the return value is `N - K`, and every kept
entry is strictly newer than every dropped one. -/
theorem c9_cleanup_retention {C : Type} (keepCount : Nat) (st : BackupSt C)
    (l : List SnapEntry)
    (hen : st.enabled = true) (hj : st.journal = JournalFile.parsed l)
    (hts : l.Pairwise (fun a b => a.timestamp ≠ b.timestamp))
    (hsid : l.Pairwise (fun a b => a.sid ≠ b.sid))
    (hfiles : ∀ e ∈ l, (getFile? e.sid st.files).isSome = true) :
    (journalEntries (cleanup_old_snapshots keepCount st).1.journal).length
      = min keepCount l.length ∧
    (l.length ≤ keepCount → cleanup_old_snapshots keepCount st = (st, 0)) ∧
    (keepCount < l.length →
      journalEntries (cleanup_old_snapshots keepCount st).1.journal
        = (sortByTsDesc l).take keepCount ∧
      (cleanup_old_snapshots keepCount st).2 = l.length - keepCount ∧
      (∀ e ∈ (sortByTsDesc l).drop keepCount,
        getFile? e.sid (cleanup_old_snapshots keepCount st).1.files = none) ∧
      (∀ e ∈ (sortByTsDesc l).take keepCount,
        ∀ e2 ∈ (sortByTsDesc l).drop keepCount, e2.timestamp < e.timestamp)) := by
  have hsnaps : list_snapshots none none none st = sortByTsDesc l := by
    simp [list_snapshots, hen, hj]
  have hlen : (sortByTsDesc l).length = l.length := length_sortByTsDesc l
  by_cases hc : l.length ≤ keepCount
  · have hcleanup : cleanup_old_snapshots keepCount st = (st, 0) := by
      simp [cleanup_old_snapshots, hen, hsnaps, hlen, hc]
    refine ⟨?_, fun _ => hcleanup, fun hlt => absurd hlt (by omega)⟩
    rw [hcleanup]
    simp [hj, journalEntries, Nat.min_eq_right hc]
  · have hgt : keepCount < l.length := Nat.lt_of_not_le hc
    have hperm := perm_sortByTsDesc l
    have hsid2 : (sortByTsDesc l).Pairwise (fun a b => a.sid ≠ b.sid) :=
      (hperm.pairwise_iff fun hab hc2 => hab hc2.symm).mpr hsid
    have hdrop_sid : ((sortByTsDesc l).drop keepCount).Pairwise
        (fun a b => a.sid ≠ b.sid) :=
      List.Pairwise.sublist (List.drop_sublist keepCount (sortByTsDesc l)) hsid2
    have hdrop_files : ∀ e ∈ (sortByTsDesc l).drop keepCount,
        (getFile? e.sid st.files).isSome = true := by
      intro e he
      exact hfiles e (mem_sortByTsDesc.mp
        (List.mem_of_mem_drop he))
    have hloop := deleteFilesLoop_spec ((sortByTsDesc l).drop keepCount)
      st.files 0 hdrop_sid hdrop_files
    have hcleanup : cleanup_old_snapshots keepCount st
        = ({ st with
              files := (deleteFilesLoop ((sortByTsDesc l).drop keepCount) st.files 0).1
              journal := JournalFile.parsed ((sortByTsDesc l).take keepCount) },
           (deleteFilesLoop ((sortByTsDesc l).drop keepCount) st.files 0).2) := by
      simp [cleanup_old_snapshots, hen, hsnaps, hlen, hc]
    have hcross : ∀ e ∈ (sortByTsDesc l).take keepCount,
        ∀ e2 ∈ (sortByTsDesc l).drop keepCount, e2.timestamp < e.timestamp := by
      have hts2 : (sortByTsDesc l).Pairwise
          (fun a b => a.timestamp ≠ b.timestamp) :=
        (hperm.pairwise_iff fun hab hc2 => hab hc2.symm).mpr hts
      have hboth := (pairwise_sortByTsDesc l).and hts2
      have hlt : (sortByTsDesc l).Pairwise
          (fun a b => b.timestamp < a.timestamp) :=
        hboth.imp (fun hab => Nat.lt_of_le_of_ne hab.1 (fun hc2 => hab.2 hc2.symm))
      rw [← List.take_append_drop keepCount (sortByTsDesc l)] at hlt
      have hca := (List.pairwise_append.mp hlt).2.2
      exact fun e he e2 he2 => hca e he e2 he2
    refine ⟨?_, fun hle => absurd hle (by omega), fun _ => ⟨?_, ?_, ?_, hcross⟩⟩
    · rw [hcleanup]
      simp [journalEntries, List.length_take, hlen]
    · rw [hcleanup]
      rfl
    · rw [hcleanup]
      have h2 := hloop.1
      simp only [Nat.zero_add] at h2
      rw [h2]
      simp [List.length_drop, hlen]
    · intro e he
      rw [hcleanup]
      exact hloop.2 e he

/-- C9, witness at `stCleanup` (three journal records) with keep count 2. -/
theorem c9_cleanup_retention_witness :
    (stCleanup.enabled = true ∧
     stCleanup.journal = JournalFile.parsed (journalEntries stCleanup.journal) ∧
     (journalEntries stCleanup.journal).Pairwise
       (fun a b => a.timestamp ≠ b.timestamp) ∧
     (journalEntries stCleanup.journal).Pairwise (fun a b => a.sid ≠ b.sid) ∧
     ∀ e ∈ journalEntries stCleanup.journal,
       (getFile? e.sid stCleanup.files).isSome = true) ∧
    ((journalEntries (cleanup_old_snapshots 2 stCleanup).1.journal).length
       = min 2 (journalEntries stCleanup.journal).length ∧
     ((journalEntries stCleanup.journal).length ≤ 2 →
       cleanup_old_snapshots 2 stCleanup = (stCleanup, 0)) ∧
     (2 < (journalEntries stCleanup.journal).length →
       journalEntries (cleanup_old_snapshots 2 stCleanup).1.journal
         = (sortByTsDesc (journalEntries stCleanup.journal)).take 2 ∧
       (cleanup_old_snapshots 2 stCleanup).2
         = (journalEntries stCleanup.journal).length - 2 ∧
       (∀ e ∈ (sortByTsDesc (journalEntries stCleanup.journal)).drop 2,
         getFile? e.sid (cleanup_old_snapshots 2 stCleanup).1.files = none) ∧
       (∀ e ∈ (sortByTsDesc (journalEntries stCleanup.journal)).take 2,
         ∀ e2 ∈ (sortByTsDesc (journalEntries stCleanup.journal)).drop 2,
           e2.timestamp < e.timestamp))) :=
  ⟨by decide,
   c9_cleanup_retention 2 stCleanup (journalEntries stCleanup.journal)
     (by decide) (by decide) (by decide) (by decide) (by decide)⟩

/-- C2: snapshot round-trip.  From any enabled state with live content A
(whose journal ids all predate the clock), `create_snapshot` returns the new
snapshot id; after mutating the live store to B, `restore_snapshot` of that
id succeeds, returns the store to A (not B), appends exactly one new journal
record — the `pre_restore`-labeled safety snapshot, whose file holds the
pre-replacement content B, proving it was recorded before the live file was
replaced — and reports success with the connection re-opened, after the
integrity check on the restored content passed. -/
theorem c2_snapshot_roundtrip {C : Type} (integrityOk : C → Bool) (A B : C)
    (st0 : BackupSt C) (desc : String) (ot et : Option String) (eid : Option Nat)
    (hen : st0.enabled = true) (hlive : st0.live = A)
    (hsid : ∀ e ∈ journalEntries st0.journal, e.sid < st0.clock)
    (hok : integrityOk A = true) :
    (create_snapshot desc ot et eid st0).2 = some st0.clock ∧
    ∃ stF : BackupSt C,
      restore_snapshot integrityOk st0.clock
          { (create_snapshot desc ot et eid st0).1 with live := B }
        = Except.ok stF ∧
      stF.live = A ∧
      stF.connOpen = true ∧
      journalEntries stF.journal
        = journalEntries st0.journal ++
          [ { sid := st0.clock, timestamp := st0.clock, description := desc
              opType := ot, entityType := et, entityId := eid },
            { sid := st0.clock + 1, timestamp := st0.clock + 1
              description := "Pre-restore safety backup"
              opType := some "pre_restore", entityType := none, entityId := none } ] ∧
      getFile? (st0.clock + 1) stF.files = some B := by
  constructor
  · simp [create_snapshot, hen]
  · have hst1 : (create_snapshot desc ot et eid st0).1
        = { st0 with
            files := putFile st0.clock st0.live st0.files
            journal := JournalFile.parsed (journalEntries st0.journal ++
              [{ sid := st0.clock, timestamp := st0.clock, description := desc
                 opType := ot, entityType := et, entityId := eid }])
            clock := st0.clock + 1 } := by
      simp [create_snapshot, hen, saveMetadata_eq]
    rw [hst1]
    have hfind : (sortByTsDesc (journalEntries st0.journal ++
          [{ sid := st0.clock, timestamp := st0.clock, description := desc
             opType := ot, entityType := et, entityId := eid }])).find?
            (fun e => e.sid == st0.clock)
        = some { sid := st0.clock, timestamp := st0.clock, description := desc
                 opType := ot, entityType := et, entityId := eid } := by
      apply find?_unique
      · exact mem_sortByTsDesc.mpr (List.mem_append_right _ (by simp))
      · simp
      · intro x hx hpx
        rcases List.mem_append.mp (mem_sortByTsDesc.mp hx) with hxl | hxe
        · have hlt := hsid x hxl
          have hx2 : x.sid = st0.clock := by simpa using hpx
          omega
        · simpa using hxe
    simp only [restore_snapshot, list_snapshots, create_snapshot, hen,
      Bool.true_eq_false, if_false, hfind, hlive, getFile?_putFile_self,
      saveMetadata_eq, hok, if_true]
    refine ⟨_, rfl, rfl, rfl, ?_, ?_⟩
    · simp [journalEntries, List.append_assoc]
    · exact getFile?_putFile_self (st0.clock + 1) B _

/-- C2, witness at the concrete state `stBackup` with contents 10 and 20. -/
theorem c2_snapshot_roundtrip_witness :
    (stBackup.enabled = true ∧ stBackup.live = 10 ∧
     (∀ e ∈ journalEntries stBackup.journal, e.sid < stBackup.clock) ∧
     (fun _ : Nat => true) 10 = true) ∧
    ((create_snapshot "roundtrip" none none none stBackup).2
       = some stBackup.clock ∧
     ∃ stF : BackupSt Nat,
       restore_snapshot (fun _ : Nat => true) stBackup.clock
           { (create_snapshot "roundtrip" none none none stBackup).1 with
               live := 20 }
         = Except.ok stF ∧
       stF.live = 10 ∧
       stF.connOpen = true ∧
       journalEntries stF.journal
         = journalEntries stBackup.journal ++
           [ { sid := stBackup.clock, timestamp := stBackup.clock
               description := "roundtrip"
               opType := none, entityType := none, entityId := none },
             { sid := stBackup.clock + 1, timestamp := stBackup.clock + 1
               description := "Pre-restore safety backup"
               opType := some "pre_restore", entityType := none
               entityId := none } ] ∧
       getFile? (stBackup.clock + 1) stF.files = some 20) :=
  ⟨by decide,
   c2_snapshot_roundtrip (fun _ : Nat => true) 10 20 stBackup "roundtrip"
     none none none (by decide) (by decide) (by decide) (by decide)⟩

end LNRS
